import Mathlib

/-!
Shallow embedding of the match-list change detector.

The definitions below are translated from the repository's Python sources:
`match_list_change_detector.py` (diff engine, rate limiter, cycle
orchestrator) and `persistent_service.py` (HTTP status endpoint).
External effects (the clock, the API client, the filesystem, the
subprocess) are made explicit parameters; fallible operations return
`Option`.
-/

/-- A JSON-like scalar value, standing in for the `Any`-typed fields of a
match dictionary. -/
inductive JVal : Type
  | null : JVal
  | bool : Bool → JVal
  | num : Int → JVal
  | str : String → JVal
deriving DecidableEq

/-- One entry of a match's `domaruppdraglista` (officials list).  Fields are
read with `.get`, hence `Option`. -/
structure Referee where
  domareid : Option JVal
  personnamn : Option JVal
  domarrollnamn : Option JVal
  epostadress : Option JVal
  mobiltelefon : Option JVal
deriving DecidableEq

/-- A match record as consumed by `detect_changes`.  `matchid` is accessed
with `match["matchid"]` (assumed present); every other field is read with
`.get`, hence `Option`.  An absent `domaruppdraglista` key is `none`. -/
structure Match where
  matchid : Nat
  matchnr : Option JVal
  speldatum : Option JVal
  avsparkstid : Option JVal
  anlaggningnamn : Option JVal
  installd : Option JVal
  avbruten : Option JVal
  uppskjuten : Option JVal
  lag1lagid : Option JVal
  lag2lagid : Option JVal
  lag1namn : Option JVal
  lag2namn : Option JVal
  domaruppdraglista : Option (List Referee)
deriving DecidableEq

/-- `{match["matchid"]: match for match in ms}` looked up at key `i`:
the last entry with that id wins. -/
def lookupMatch (ms : List Match) (i : Nat) : Option Match :=
  (ms.filter (fun m => m.matchid == i)).getLast?

/-- The `basic_changes` disjunction of `detect_changes` (lines 379-388):
compares date, kickoff time, venue, the three status flags and the two
team ids. -/
def basicChanges (p c : Match) : Bool :=
  p.speldatum != c.speldatum
    || p.avsparkstid != c.avsparkstid
    || p.anlaggningnamn != c.anlaggningnamn
    || p.installd != c.installd
    || p.avbruten != c.avbruten
    || p.uppskjuten != c.uppskjuten
    || p.lag1lagid != c.lag1lagid
    || p.lag2lagid != c.lag2lagid

/-- The referee ids collected from a match's `domaruppdraglista`; an absent
list contributes nothing. -/
def refereeIds (m : Match) : List (Option JVal) :=
  (m.domaruppdraglista.getD []).map Referee.domareid

/-- `referee_changes` of `detect_changes` (lines 390-404): the Python sets
of referee ids differ. -/
def refereeChanges (p c : Match) : Bool :=
  decide ((refereeIds p).toFinset ≠ (refereeIds c).toFinset)

/-- A team capture inside a change record (`{"id": ..., "name": ...}`). -/
structure TeamCapture where
  id : Option JVal
  name : Option JVal
deriving DecidableEq

/-- A status capture inside a change record; `.get(key, False)` defaults. -/
structure StatusCapture where
  cancelled : JVal
  interrupted : JVal
  postponed : JVal
deriving DecidableEq

/-- One referee entry of a change record. -/
structure RefereeCapture where
  id : Option JVal
  name : Option JVal
  role : Option JVal
  email : Option JVal
  phone : Option JVal
deriving DecidableEq

/-- The `previous`/`current` field capture of a change record. -/
structure MatchCapture where
  date : Option JVal
  time : Option JVal
  home_team : TeamCapture
  away_team : TeamCapture
  venue : Option JVal
  status : StatusCapture
  referees : List RefereeCapture
deriving DecidableEq

/-- A `MatchChangeRecord` with the two change flags flattened out. -/
structure ChangeRecord where
  match_id : Nat
  match_nr : Option JVal
  previous : MatchCapture
  current : MatchCapture
  changes_basic : Bool
  changes_referees : Bool
deriving DecidableEq

/-- Referee details appended to a capture (lines 452-476). -/
def refereeCaptures (m : Match) : List RefereeCapture :=
  (m.domaruppdraglista.getD []).map fun r =>
    ⟨r.domareid, r.personnamn, r.domarrollnamn, r.epostadress, r.mobiltelefon⟩

/-- The field capture built for one side of a change record. -/
def mkCapture (m : Match) : MatchCapture :=
  { date := m.speldatum
    time := m.avsparkstid
    home_team := ⟨m.lag1lagid, m.lag1namn⟩
    away_team := ⟨m.lag2lagid, m.lag2namn⟩
    venue := m.anlaggningnamn
    status := ⟨m.installd.getD (JVal.bool false), m.avbruten.getD (JVal.bool false),
               m.uppskjuten.getD (JVal.bool false)⟩
    referees := refereeCaptures m }

/-- The change record built for a common id (lines 408-450). -/
def mkChangeRecord (i : Nat) (p c : Match) : ChangeRecord :=
  { match_id := i
    match_nr := c.matchnr
    previous := mkCapture p
    current := mkCapture c
    changes_basic := basicChanges p c
    changes_referees := refereeChanges p c }

/-- The `ChangesSummary` dictionary. -/
structure ChangesSummary where
  new_matches : Nat
  removed_matches : Nat
  changed_matches : Nat
  new_match_details : List Match
  removed_match_details : List Match
  changed_match_details : List ChangeRecord
deriving DecidableEq

/-- The second component of `detect_changes`'s return value: either the
degenerate initial dictionary (`new_matches` count plus a message) or a
full summary. -/
inductive DetectResult : Type
  | initial : Nat → String → DetectResult
  | summary : ChangesSummary → DetectResult
deriving DecidableEq

/-- The distinct match ids of a snapshot (`set(dict.keys())`). -/
def idsOf (ms : List Match) : List Nat :=
  (ms.map Match.matchid).dedup

/-- The change records computed for the common ids of two snapshots. -/
def changedRecords (previous current : List Match) : List ChangeRecord :=
  ((idsOf current).filter (fun i => (idsOf previous).contains i)).filterMap fun i =>
    match lookupMatch previous i with
    | none => none
    | some p =>
      match lookupMatch current i with
      | none => none
      | some c =>
        if basicChanges p c || refereeChanges p c then some (mkChangeRecord i p c) else none

/-- `MatchListChangeDetector.detect_changes` (lines 346-505): diff the
previous snapshot against the current one. -/
def detect_changes (previous current : List Match) : Bool × DetectResult :=
  if previous = [] then
    (true, DetectResult.initial current.length "Initial match list fetch")
  else
    let newIds := (idsOf current).filter (fun i => !((idsOf previous).contains i))
    let removedIds := (idsOf previous).filter (fun i => !((idsOf current).contains i))
    let changed := changedRecords previous current
    let s : ChangesSummary :=
      { new_matches := newIds.length
        removed_matches := removedIds.length
        changed_matches := changed.length
        new_match_details := newIds.filterMap (lookupMatch current)
        removed_match_details := removedIds.filterMap (lookupMatch previous)
        changed_match_details := changed }
    (newIds.length > 0 || removedIds.length > 0 || changed.length > 0,
      DetectResult.summary s)

/-- The `RateLimiter` state: limit, window (seconds) and recorded request
timestamps.  Clock readings are made explicit arguments of the
operations. -/
structure RateLimiter where
  max_requests : Nat
  time_window : ℚ
  request_timestamps : List ℚ
deriving DecidableEq

/-- The pruning comprehension of `can_make_request` (lines 168-170): keep
the timestamps still inside the trailing window. -/
def prunedList (rl : RateLimiter) (now : ℚ) : List ℚ :=
  rl.request_timestamps.filter (fun ts => decide (now - ts < rl.time_window))

/-- `RateLimiter.can_make_request` (lines 157-177): prune timestamps that
have left the trailing window, then admit (recording `now`) exactly when
the pruned count is below the limit. -/
def RateLimiter.can_make_request (rl : RateLimiter) (now : ℚ) : Bool × RateLimiter :=
  if (prunedList rl now).length < rl.max_requests then
    (true, { rl with request_timestamps := prunedList rl now ++ [now] })
  else
    (false, { rl with request_timestamps := prunedList rl now })

/-- `RateLimiter.wait_for_next_request` (lines 179-202).  The three clock
readings of the Python body (inside `can_make_request`, before computing
the wait, and after the sleep) are `now1`, `now2`, `now3`.  Indexing an
empty timestamp list (Python `IndexError`) is `none`. -/
def RateLimiter.wait_for_next_request (rl : RateLimiter) (now1 now2 now3 : ℚ) :
    Option (ℚ × RateLimiter) :=
  let r := rl.can_make_request now1
  if r.1 then some (0, r.2)
  else
    match r.2.request_timestamps with
    | [] => none
    | oldest :: rest =>
      some (rl.time_window - (now2 - oldest) + 1 / 10,
        { r.2 with request_timestamps := rest ++ [now3] })

/-- Run `can_make_request` once per clock reading, collecting the results
(used to express repeated admission). -/
def RateLimiter.admitAll (rl : RateLimiter) : List ℚ → List Bool × RateLimiter
  | [] => ([], rl)
  | t :: ts =>
    let r := rl.can_make_request t
    let rec' := r.2.admitAll ts
    (r.1 :: rec'.1, rec'.2)

/-- Outcome of the `subprocess.run` call inside `trigger_docker_compose`:
either the 30-second wait expired, or the command completed with a return
code. -/
inductive TriggerRunOutcome : Type
  | timeout : TriggerRunOutcome
  | completed : Int → TriggerRunOutcome
deriving DecidableEq

/-- The environment facts `trigger_docker_compose` branches on. -/
structure TriggerEnv where
  compose_file_set : Bool
  compose_file_exists : Bool
  docker_compose_found : Bool
  changes_path_valid : Bool
  run_outcome : TriggerRunOutcome
deriving DecidableEq

/-- `MatchListChangeDetector.trigger_docker_compose` (lines 508-566):
validation failures return `false`; a timed-out subprocess returns `true`
(lines 548-554); otherwise success is a zero exit code. -/
def trigger_docker_compose (env : TriggerEnv) : Bool :=
  if !env.compose_file_set then false
  else if !env.compose_file_exists then false
  else if !env.docker_compose_found then false
  else if !env.changes_path_valid then false
  else
    match env.run_outcome with
    | TriggerRunOutcome.timeout => true
    | TriggerRunOutcome.completed rc => rc == 0

/-- Shape of the API response received by `fetch_current_matches`.
`errorDict` is the client's failure response `{"matches": [], "total": 0,
"status": "error", ...}` (centralized_api_client.py lines 136 and 165):
it contains a `"matches"` key, so line 332 of the detector cannot tell it
from a successful empty fetch. -/
inductive ApiResponse : Type
  | matchesDict : List Match → ApiResponse
  | errorDict : ApiResponse
  | listResp : List Match → ApiResponse
  | other : ApiResponse
deriving DecidableEq

/-- Behaviour of the external client during one fetch: the login call
raises, the match-fetch call raises, login succeeds and a response
arrives, or login returns `False` (a return value line 313 discards) and
a response arrives anyway. -/
inductive FetchEnv : Type
  | loginRaises : FetchEnv
  | fetchRaises : FetchEnv
  | ok : ApiResponse → FetchEnv
  | loginFailed : ApiResponse → FetchEnv
deriving DecidableEq

/-- `MatchListChangeDetector.fetch_current_matches` (lines 305-344): only
an exception inside the method yields `false`.  The boolean returned by
`login()` is discarded (line 313), so `loginFailed` behaves exactly like
`ok`; the client's `errorDict` is taken as a successful empty fetch
(lines 332-333); an unexpected response structure logs and sets an empty
list but still returns `true` (lines 336-339). -/
def fetch_current_matches : FetchEnv → Bool × List Match
  | FetchEnv.loginRaises => (false, [])
  | FetchEnv.fetchRaises => (false, [])
  | FetchEnv.ok (ApiResponse.matchesDict ms) => (true, ms)
  | FetchEnv.ok ApiResponse.errorDict => (true, [])
  | FetchEnv.ok (ApiResponse.listResp ms) => (true, ms)
  | FetchEnv.ok ApiResponse.other => (true, [])
  | FetchEnv.loginFailed (ApiResponse.matchesDict ms) => (true, ms)
  | FetchEnv.loginFailed ApiResponse.errorDict => (true, [])
  | FetchEnv.loginFailed (ApiResponse.listResp ms) => (true, ms)
  | FetchEnv.loginFailed ApiResponse.other => (true, [])

/-- The steps of one detection cycle, in the order `run` performs them. -/
inductive Step : Type
  | loadBaseline : Step
  | fetch : Step
  | diff : Step
  | trigger : Step
  | persist : Step
deriving DecidableEq

/-- The observable outcome of one invocation of
`MatchListChangeDetector.run`: the returned boolean, the content of the
previous-matches file afterwards, the steps performed, and the result of
`trigger_docker_compose` when it was invoked (its only use in `run` is a
metrics counter). -/
structure CycleResult where
  ok : Bool
  baseline : Option (List Match)
  steps : List Step
  trigger_result : Option Bool
deriving DecidableEq

/-- `MatchListChangeDetector.run` (lines 568-618).  `baseline` is the
content of the previous-matches file (`none` when absent or unreadable:
`load_previous_matches` then leaves the in-memory list empty).  `save_ok`
is the result of `save_current_matches`; `run` discards it (line 606). -/
def runCycle (fenv : FetchEnv) (tenv : TriggerEnv) (save_ok : Bool)
    (baseline : Option (List Match)) : CycleResult :=
  let previous := baseline.getD []
  let fr := fetch_current_matches fenv
  if fr.1 = false then
    { ok := false, baseline := baseline, steps := [Step.loadBaseline, Step.fetch],
      trigger_result := none }
  else
    let current := fr.2
    let hc := (detect_changes previous current).1
    { ok := true
      baseline := if save_ok then some current else baseline
      steps := [Step.loadBaseline, Step.fetch, Step.diff]
        ++ (if hc then [Step.trigger] else []) ++ [Step.persist]
      trigger_result := if hc then some (trigger_docker_compose tenv) else none }

/-- The configuration keys `service_status` reads. -/
structure ServiceConfig where
  health_server_port : Nat
  health_server_host : String
  fogis_username : Option String
  fogis_password : Option String
deriving DecidableEq

/-- The mutable service state `service_status` reads (timing fields are
part of this state). -/
structure ServiceState where
  run_mode : String
  running : Bool
  cron_schedule : String
  last_execution : Option String
  next_execution : Option String
  execution_count : Nat
  uptime_seconds : ℚ
deriving DecidableEq

/-- The `configuration` sub-object of the `/status` body.  Note that the
username value itself is included (`config.get("FOGIS_USERNAME",
"NOT_SET")`) while the password appears only as a truthiness boolean. -/
structure StatusConfigSummary where
  health_server_port : Nat
  health_server_host : String
  fogis_username : String
  fogis_password_set : Bool
deriving DecidableEq

/-- The JSON body returned by `GET /status`. -/
structure StatusBody where
  service_name : String
  run_mode : String
  running : Bool
  cron_schedule : String
  last_execution : Option String
  next_execution : Option String
  execution_count : Nat
  uptime_seconds : ℚ
  configuration : StatusConfigSummary
deriving DecidableEq

/-- `bool(x)` for an optional string: `None` and `""` are falsy. -/
def pyTruthy : Option String → Bool
  | none => false
  | some s => s ≠ ""

/-- `service_status` (persistent_service.py lines 120-138): the `/status`
endpoint body. -/
def service_status (st : ServiceState) (cfg : ServiceConfig) : StatusBody :=
  { service_name := "match-list-change-detector"
    run_mode := st.run_mode
    running := st.running
    cron_schedule := st.cron_schedule
    last_execution := st.last_execution
    next_execution := st.next_execution
    execution_count := st.execution_count
    uptime_seconds := st.uptime_seconds
    configuration :=
      { health_server_port := cfg.health_server_port
        health_server_host := cfg.health_server_host
        fogis_username := cfg.fogis_username.getD "NOT_SET"
        fogis_password_set := pyTruthy cfg.fogis_password } }

/-- A match record with every optional field absent. -/
def sampleMatch : Match :=
  ⟨1, none, none, none, none, none, none, none, none, none, none, none, none⟩

/-- `sampleMatch` with a changed kickoff time. -/
def sampleMatchB : Match :=
  { sampleMatch with avsparkstid := some (JVal.str "15:00") }

/-- `sampleMatch` with only a team name changed. -/
def sampleMatchNameOnly : Match :=
  { sampleMatch with lag1namn := some (JVal.str "Team A") }

/-- A referee with id 10. -/
def refA : Referee := ⟨some (JVal.num 10), some (JVal.str "A"), none, none, none⟩

/-- A referee with id 20. -/
def refB : Referee := ⟨some (JVal.num 20), none, none, none, none⟩

/-- `sampleMatch` with officials `[refA, refB]`. -/
def permMatchA : Match :=
  { sampleMatch with domaruppdraglista := some [refA, refB] }

/-- `sampleMatch` with the same officials in the opposite order. -/
def permMatchB : Match :=
  { sampleMatch with domaruppdraglista := some [refB, refA] }

/-- A trigger environment whose validations pass and whose subprocess
times out. -/
def sampleTriggerEnv : TriggerEnv :=
  ⟨true, true, true, true, TriggerRunOutcome.timeout⟩

/-- A fixed service state for evaluating `service_status`. -/
def sampleState : ServiceState :=
  ⟨"service", true, "0 * * * *", none, none, 0, 0⟩

/-- C5: with an empty previous snapshot, `detect_changes` returns the
degenerate initial result: changes flagged, the new-match count is the
length of the current snapshot, the initial-fetch message, and no detail
lists (the `initial` constructor carries none). -/
theorem detect_changes_initial (current : List Match) :
    detect_changes [] current =
      (true, DetectResult.initial current.length "Initial match list fetch") := by
  simp [detect_changes]

/-- When `fetch_current_matches` returns `false` (an exception inside the
method), the cycle returns `false` after only the load and fetch steps;
the diff and persist steps are not performed and the baseline file keeps
its previous content. -/
theorem fetch_failure_aborts (fenv : FetchEnv) (tenv : TriggerEnv) (save_ok : Bool)
    (baseline : Option (List Match)) (h : (fetch_current_matches fenv).1 = false) :
    runCycle fenv tenv save_ok baseline =
      { ok := false, baseline := baseline, steps := [Step.loadBaseline, Step.fetch],
        trigger_result := none }
    ∧ Step.diff ∉ (runCycle fenv tenv save_ok baseline).steps
    ∧ Step.persist ∉ (runCycle fenv tenv save_ok baseline).steps := by
  have hr : runCycle fenv tenv save_ok baseline =
      { ok := false, baseline := baseline, steps := [Step.loadBaseline, Step.fetch],
        trigger_result := none } := by
    simp [runCycle, h]
  refine ⟨hr, ?_, ?_⟩ <;> rw [hr] <;> simp

/-- A login exception aborts the cycle with the baseline intact and
without the diff or persist steps. -/
theorem fetch_failure_aborts_witness :
    runCycle FetchEnv.loginRaises sampleTriggerEnv true (some [sampleMatch]) =
      { ok := false, baseline := some [sampleMatch],
        steps := [Step.loadBaseline, Step.fetch], trigger_result := none }
    ∧ Step.diff ∉ (runCycle FetchEnv.loginRaises sampleTriggerEnv true
        (some [sampleMatch])).steps
    ∧ Step.persist ∉ (runCycle FetchEnv.loginRaises sampleTriggerEnv true
        (some [sampleMatch])).steps :=
  fetch_failure_aborts FetchEnv.loginRaises sampleTriggerEnv true (some [sampleMatch]) rfl

/-- The fetch step returns `false` only on the two exception paths: every
non-success return (discarded `login()` boolean, error dictionary,
unexpected structure) is reported as success. -/
theorem fetch_false_iff_raises (fenv : FetchEnv) :
    (fetch_current_matches fenv).1 = false ↔
      (fenv = FetchEnv.loginRaises ∨ fenv = FetchEnv.fetchRaises) := by
  cases fenv with
  | loginRaises => simp [fetch_current_matches]
  | fetchRaises => simp [fetch_current_matches]
  | ok r => cases r <;> simp [fetch_current_matches]
  | loginFailed r => cases r <;> simp [fetch_current_matches]

/-- C4: the code does not abort on a non-success fetch.  With a non-empty
baseline, `login()` returning `False` (discarded at line 313) followed by
the client's failure response `{"matches": [], "status": "error"}`
(treated at lines 332-333 as a successful empty fetch) lets the cycle
report success, run the diff and persist steps, and overwrite the
baseline with the empty snapshot — where the claim requires an abort at
`Failed` before diff with the baseline left unchanged. -/
theorem fetch_nonsuccess_not_aborted :
    fetch_current_matches (FetchEnv.loginFailed ApiResponse.errorDict) = (true, [])
    ∧ (runCycle (FetchEnv.loginFailed ApiResponse.errorDict) sampleTriggerEnv true
        (some [sampleMatch])).ok = true
    ∧ Step.diff ∈ (runCycle (FetchEnv.loginFailed ApiResponse.errorDict) sampleTriggerEnv true
        (some [sampleMatch])).steps
    ∧ Step.persist ∈ (runCycle (FetchEnv.loginFailed ApiResponse.errorDict) sampleTriggerEnv
        true (some [sampleMatch])).steps
    ∧ (runCycle (FetchEnv.loginFailed ApiResponse.errorDict) sampleTriggerEnv true
        (some [sampleMatch])).baseline = some [] := by
  refine ⟨?_, ?_, ?_, ?_, ?_⟩ <;> decide

/-- C3: when the downstream trigger command is launched (all validations
pass, changes were detected) and its 30-second wait expires, the trigger
step reports success, the cycle still performs the persist step, the new
snapshot becomes the baseline, and the cycle reports overall success. -/
theorem trigger_timeout_not_failure (current : List Match) (baseline : Option (List Match))
    (tenv : TriggerEnv)
    (h1 : tenv.compose_file_set = true) (h2 : tenv.compose_file_exists = true)
    (h3 : tenv.docker_compose_found = true) (h4 : tenv.changes_path_valid = true)
    (h5 : tenv.run_outcome = TriggerRunOutcome.timeout)
    (hc : (detect_changes (baseline.getD []) current).1 = true) :
    trigger_docker_compose tenv = true
    ∧ runCycle (FetchEnv.ok (ApiResponse.listResp current)) tenv true baseline =
        { ok := true, baseline := some current,
          steps := [Step.loadBaseline, Step.fetch, Step.diff, Step.trigger, Step.persist],
          trigger_result := some true } := by
  have ht : trigger_docker_compose tenv = true := by
    simp [trigger_docker_compose, h1, h2, h3, h4, h5]
  refine ⟨ht, ?_⟩
  simp [runCycle, fetch_current_matches, hc, ht]

/-- C3 witness: a concrete timed-out trigger cycle succeeds and persists. -/
theorem trigger_timeout_not_failure_witness :
    trigger_docker_compose sampleTriggerEnv = true
    ∧ runCycle (FetchEnv.ok (ApiResponse.listResp [sampleMatch])) sampleTriggerEnv true none =
        { ok := true, baseline := some [sampleMatch],
          steps := [Step.loadBaseline, Step.fetch, Step.diff, Step.trigger, Step.persist],
          trigger_result := some true } :=
  trigger_timeout_not_failure [sampleMatch] none sampleTriggerEnv rfl rfl rfl rfl rfl
    (by decide)

/-- C1: `run` discards the result of `save_current_matches` (line 606), so
a cycle whose fetch and diff succeed but whose persist step fails still
reports overall success; here the persist step runs, fails, the baseline
file keeps its stale content, and `run` returns `true`. -/
theorem persist_failure_not_surfaced :
    (runCycle (FetchEnv.ok (ApiResponse.listResp [sampleMatchB])) sampleTriggerEnv false
        (some [sampleMatch])).ok = true
    ∧ Step.persist ∈ (runCycle (FetchEnv.ok (ApiResponse.listResp [sampleMatchB]))
        sampleTriggerEnv false (some [sampleMatch])).steps
    ∧ (runCycle (FetchEnv.ok (ApiResponse.listResp [sampleMatchB])) sampleTriggerEnv false
        (some [sampleMatch])).baseline = some [sampleMatch] := by
  refine ⟨?_, ?_, ?_⟩ <;> decide

/-- Pruning keeps a uniform list whose timestamp is still in the window. -/
theorem filter_replicate_in_window (j : Nat) (w t now : ℚ) (h : now - t < w) :
    (List.replicate j t).filter (fun ts => decide (now - ts < w)) = List.replicate j t := by
  refine List.filter_eq_self.mpr ?_
  intro a ha
  rw [List.eq_of_mem_replicate ha]
  simpa using h

/-- Pruning drops a uniform list whose timestamp has left the window. -/
theorem filter_replicate_out_window (j : Nat) (w t now : ℚ) (h : ¬ now - t < w) :
    (List.replicate j t).filter (fun ts => decide (now - ts < w)) = [] := by
  rw [List.filter_eq_nil_iff]
  intro a ha
  rw [List.eq_of_mem_replicate ha]
  simpa using h

/-- Below the limit, an admission at the shared timestamp appends one more
copy of it. -/
theorem can_make_request_replicate_admit (n j : Nat) (w t : ℚ) (hw : 0 < w) (hj : j < n) :
    (RateLimiter.mk n w (List.replicate j t)).can_make_request t =
      (true, RateLimiter.mk n w (List.replicate (j + 1) t)) := by
  unfold RateLimiter.can_make_request
  have hfil : prunedList (RateLimiter.mk n w (List.replicate j t)) t = List.replicate j t := by
    unfold prunedList
    exact filter_replicate_in_window j w t t (by simpa using hw)
  rw [hfil, List.length_replicate, if_pos hj, ← List.replicate_succ']

/-- Starting from `j` recorded copies of `t`, the next `m` requests at time
`t` are all admitted while `j + m` stays within the limit. -/
theorem admitAll_replicate (n : Nat) (w t : ℚ) (hw : 0 < w) :
    ∀ (m j : Nat), j + m ≤ n →
      (RateLimiter.mk n w (List.replicate j t)).admitAll (List.replicate m t) =
        (List.replicate m true, RateLimiter.mk n w (List.replicate (j + m) t)) := by
  intro m
  induction m with
  | zero => intro j hle; simp [RateLimiter.admitAll]
  | succ m ih =>
    intro j hle
    have hstep := can_make_request_replicate_admit n j w t hw (by omega)
    have ih' := ih (j + 1) (by omega)
    have harith : j + 1 + m = j + (m + 1) := by omega
    rw [List.replicate_succ]
    simp only [RateLimiter.admitAll, hstep, ih', harith]
    rw [List.replicate_succ]

/-- `n` admissions at one instant from an empty limiter all succeed and
leave `n` recorded copies of that instant. -/
theorem admitAll_replicate_full (n : Nat) (w t : ℚ) (hw : 0 < w) :
    (RateLimiter.mk n w []).admitAll (List.replicate n t) =
      (List.replicate n true, RateLimiter.mk n w (List.replicate n t)) := by
  have := admitAll_replicate n w t hw n 0 (by omega)
  simpa using this

/-- C8: `can_make_request` admits (appending the current timestamp) exactly
when the in-window count is below the limit, and otherwise denies leaving
only the pruned timestamps; consequently `max_requests` admissions inside
one window exhaust the budget — a further request in the window is denied
— and a request after the window has fully elapsed is admitted again. -/
theorem rate_limiter_admit_spec (rl : RateLimiter) (now : ℚ) :
    ((rl.can_make_request now).1 = true ↔
      (prunedList rl now).length < rl.max_requests)
    ∧ ((rl.can_make_request now).1 = true →
        (rl.can_make_request now).2.request_timestamps = prunedList rl now ++ [now])
    ∧ ((rl.can_make_request now).1 = false →
        (rl.can_make_request now).2.request_timestamps = prunedList rl now)
    ∧ (∀ (n : Nat) (w t tp te : ℚ), 0 < n → 0 < w →
        ((RateLimiter.mk n w []).admitAll (List.replicate n t)).1 = List.replicate n true
        ∧ (tp - t < w →
            ((((RateLimiter.mk n w []).admitAll (List.replicate n t)).2).can_make_request tp).1
              = false)
        ∧ (w ≤ te - t →
            ((((RateLimiter.mk n w []).admitAll (List.replicate n t)).2).can_make_request te).1
              = true)) := by
  refine ⟨?_, ?_, ?_, ?_⟩
  · by_cases hlt : (prunedList rl now).length < rl.max_requests <;>
      simp [RateLimiter.can_make_request, hlt]
  · by_cases hlt : (prunedList rl now).length < rl.max_requests <;>
      simp [RateLimiter.can_make_request, hlt]
  · by_cases hlt : (prunedList rl now).length < rl.max_requests <;>
      simp [RateLimiter.can_make_request, hlt]
  · intro n w t tp te hn hw
    have h0 := admitAll_replicate_full n w t hw
    refine ⟨by rw [h0], ?_, ?_⟩
    · intro hp
      rw [h0]
      unfold RateLimiter.can_make_request
      have hfil : prunedList (RateLimiter.mk n w (List.replicate n t)) tp
          = List.replicate n t := by
        unfold prunedList
        exact filter_replicate_in_window n w t tp hp
      rw [hfil, List.length_replicate, if_neg (lt_irrefl n)]
    · intro he
      rw [h0]
      unfold RateLimiter.can_make_request
      have hfil : prunedList (RateLimiter.mk n w (List.replicate n t)) te = [] := by
        unfold prunedList
        exact filter_replicate_out_window n w t te (not_lt.mpr he)
      rw [hfil]
      simp [hn]

/-- C8 witness: with a limit of 2 per 60 seconds, two admissions at time 0
exhaust the budget and a request at time 30 is denied. -/
theorem rate_limiter_admit_spec_witness :
    ((((RateLimiter.mk 2 60 []).admitAll (List.replicate 2 0)).2).can_make_request 30).1
      = false :=
  ((rate_limiter_admit_spec (RateLimiter.mk 2 60 []) 0).2.2.2 2 60 0 30 60 (by decide)
    (by norm_num)).2.1 (by norm_num)

/-- One `can_make_request` call preserves the length bound. -/
theorem can_make_request_length (rl : RateLimiter)
    (h : rl.request_timestamps.length ≤ rl.max_requests) (now : ℚ) :
    (rl.can_make_request now).2.request_timestamps.length ≤ rl.max_requests := by
  unfold RateLimiter.can_make_request
  by_cases hlt : (prunedList rl now).length < rl.max_requests
  · rw [if_pos hlt]
    show (prunedList rl now ++ [now]).length ≤ rl.max_requests
    rw [List.length_append]
    simp only [List.length_cons, List.length_nil]
    omega
  · rw [if_neg hlt]
    show (prunedList rl now).length ≤ rl.max_requests
    unfold prunedList
    exact le_trans (List.length_filter_le _ _) h

/-- C9: if the recorded-timestamp list is within the limit, both rate
limiter operations keep it within the limit: `can_make_request` appends
only below the limit, and `wait_for_next_request` removes the oldest
timestamp before appending the new one. -/
theorem rate_limiter_length_invariant (rl : RateLimiter)
    (h : rl.request_timestamps.length ≤ rl.max_requests) (now n1 n2 n3 : ℚ) :
    ((rl.can_make_request now).2.request_timestamps.length ≤ rl.max_requests)
    ∧ (∀ (w : ℚ) (rl' : RateLimiter), rl.wait_for_next_request n1 n2 n3 = some (w, rl') →
        rl'.request_timestamps.length ≤ rl.max_requests) := by
  refine ⟨can_make_request_length rl h now, ?_⟩
  intro w rl' hw'
  rcases hcm : rl.can_make_request n1 with ⟨b, rl1⟩
  have hlen1 : rl1.request_timestamps.length ≤ rl.max_requests := by
    have := can_make_request_length rl h n1
    rw [hcm] at this
    exact this
  simp only [RateLimiter.wait_for_next_request, hcm] at hw'
  cases b with
  | true =>
    simp only [if_true, Option.some.injEq, Prod.mk.injEq] at hw'
    rw [← hw'.2]
    exact hlen1
  | false =>
    simp only [Bool.false_eq_true, if_false] at hw'
    cases hlist : rl1.request_timestamps with
    | nil =>
      rw [hlist] at hw'
      simp at hw'
    | cons oldest rest =>
      rw [hlist] at hw'
      simp only [Option.some.injEq, Prod.mk.injEq] at hw'
      rw [← hw'.2]
      show (rest ++ [n3]).length ≤ rl.max_requests
      rw [List.length_append]
      have hc1 : rl1.request_timestamps.length = rest.length + 1 := by
        rw [hlist]
        simp
      simp only [List.length_cons, List.length_nil]
      omega

/-- C9 witness: a full limiter (one recorded timestamp, limit one) stays
within its bound after another `can_make_request`. -/
theorem rate_limiter_length_invariant_witness :
    (((RateLimiter.mk 1 60 [0]).can_make_request 1).2).request_timestamps.length
      ≤ (RateLimiter.mk 1 60 [0]).max_requests :=
  (rate_limiter_length_invariant (RateLimiter.mk 1 60 [0]) (by decide) 1 1 1 1).1

/-- C10: with a limit of at least one request, `wait_for_next_request`
always returns a value — whenever admission is denied the pruned timestamp
list is non-empty, so the oldest-timestamp accesses cannot fail; with a
limit of zero the same accesses hit an empty list (`none`, the Python
`IndexError`). -/
theorem wait_for_next_request_safe (rl : RateLimiter) (h : 1 ≤ rl.max_requests)
    (n1 n2 n3 : ℚ) :
    (rl.wait_for_next_request n1 n2 n3).isSome = true
    ∧ ((rl.can_make_request n1).1 = false →
        (rl.can_make_request n1).2.request_timestamps ≠ [])
    ∧ (RateLimiter.mk 0 60 []).wait_for_next_request 0 0 0 = none := by
  have hne : (rl.can_make_request n1).1 = false →
      (rl.can_make_request n1).2.request_timestamps ≠ [] := by
    intro hf
    unfold RateLimiter.can_make_request at hf ⊢
    by_cases hlt : (prunedList rl n1).length < rl.max_requests
    · rw [if_pos hlt] at hf
      simp at hf
    · rw [if_neg hlt]
      show prunedList rl n1 ≠ []
      intro hnil
      rw [hnil] at hlt
      simp only [List.length_nil] at hlt
      omega
  refine ⟨?_, hne, by rfl⟩
  rcases hcm : rl.can_make_request n1 with ⟨b, rl1⟩
  simp only [RateLimiter.wait_for_next_request, hcm]
  cases b with
  | true => rfl
  | false =>
    have hne' := hne (by rw [hcm])
    rw [hcm] at hne'
    simp only [Bool.false_eq_true, if_false]
    cases hlist : rl1.request_timestamps with
    | nil => exact absurd hlist hne'
    | cons oldest rest => rfl

/-- C10 witness: a full one-request limiter is denied but the wait
operation still returns a value. -/
theorem wait_for_next_request_safe_witness :
    ((RateLimiter.mk 1 60 [0]).wait_for_next_request 0 0 0).isSome = true :=
  (wait_for_next_request_safe (RateLimiter.mk 1 60 [0]) (by decide) 0 0 0).1

/-- A record of `changedRecords` carrying a given common id is exactly the
record built from the two looked-up matches for that id. -/
theorem changedRecords_mem_eq (previous current : List Match) (i : Nat) (p c : Match)
    (hp : lookupMatch previous i = some p) (hc : lookupMatch current i = some c)
    (r : ChangeRecord) (hr : r ∈ changedRecords previous current)
    (hid : r.match_id = i) : r = mkChangeRecord i p c := by
  unfold changedRecords at hr
  obtain ⟨j, hj, hfj⟩ := List.mem_filterMap.mp hr
  cases hlp : lookupMatch previous j with
  | none => rw [hlp] at hfj; simp at hfj
  | some p' =>
    rw [hlp] at hfj
    cases hlc : lookupMatch current j with
    | none => rw [hlc] at hfj; simp at hfj
    | some c' =>
      rw [hlc] at hfj
      by_cases hcond : (basicChanges p' c' || refereeChanges p' c') = true
      · simp only [hcond, if_true, Option.some.injEq] at hfj
        have hji : j = i := by
          rw [← hfj] at hid
          simpa [mkChangeRecord] using hid
        subst hji
        have hpp : p' = p := by
          rw [hp] at hlp
          exact (Option.some.inj hlp).symm
        have hcc : c' = c := by
          rw [hc] at hlc
          exact (Option.some.inj hlc).symm
        rw [← hfj, hpp, hcc]
      · simp only [hcond, if_false] at hfj
        simp at hfj

/-- C6: for an id present in both snapshots, the change record's basic flag
is the `basicChanges` comparison of the two looked-up matches, which is
true exactly when one of the eight compared fields (date, kickoff time,
venue, the three status flags, the two team ids) differs; agreement of
those eight fields — regardless of team names — gives a false flag. -/
theorem basic_changed_spec (previous current : List Match) (i : Nat) (p c : Match)
    (hp : lookupMatch previous i = some p) (hc : lookupMatch current i = some c) :
    (∀ r ∈ changedRecords previous current, r.match_id = i →
        r.changes_basic = basicChanges p c)
    ∧ (basicChanges p c = true ↔
        (p.speldatum ≠ c.speldatum ∨ p.avsparkstid ≠ c.avsparkstid ∨
         p.anlaggningnamn ≠ c.anlaggningnamn ∨ p.installd ≠ c.installd ∨
         p.avbruten ≠ c.avbruten ∨ p.uppskjuten ≠ c.uppskjuten ∨
         p.lag1lagid ≠ c.lag1lagid ∨ p.lag2lagid ≠ c.lag2lagid))
    ∧ ((p.speldatum = c.speldatum ∧ p.avsparkstid = c.avsparkstid ∧
        p.anlaggningnamn = c.anlaggningnamn ∧ p.installd = c.installd ∧
        p.avbruten = c.avbruten ∧ p.uppskjuten = c.uppskjuten ∧
        p.lag1lagid = c.lag1lagid ∧ p.lag2lagid = c.lag2lagid) →
        basicChanges p c = false) := by
  refine ⟨?_, ?_, ?_⟩
  · intro r hr hid
    rw [changedRecords_mem_eq previous current i p c hp hc r hr hid]
    rfl
  · simp only [basicChanges, Bool.or_eq_true, bne_iff_ne]
    tauto
  · intro hall
    obtain ⟨h1, h2, h3, h4, h5, h6, h7, h8⟩ := hall
    simp [basicChanges, h1, h2, h3, h4, h5, h6, h7, h8]

/-- C6 witness: two matches that differ only in a team name yield a false
basic flag. -/
theorem basic_changed_spec_witness :
    basicChanges sampleMatch sampleMatchNameOnly = false :=
  (basic_changed_spec [sampleMatch] [sampleMatchNameOnly] 1 sampleMatch sampleMatchNameOnly
      (by decide) (by decide)).2.2 ⟨rfl, rfl, rfl, rfl, rfl, rfl, rfl, rfl⟩

/-- C7: for an id present in both snapshots, the change record's officials
flag is the `refereeChanges` set comparison, which is false exactly when
the two referee-id collections have the same members; an absent officials
list contributes the empty collection, and any permutation of the referee
ids (in particular reordering officials or changing their non-id fields)
gives a false flag. -/
theorem officials_changed_spec (previous current : List Match) (i : Nat) (p c : Match)
    (hp : lookupMatch previous i = some p) (hc : lookupMatch current i = some c) :
    (∀ r ∈ changedRecords previous current, r.match_id = i →
        r.changes_referees = refereeChanges p c)
    ∧ (refereeChanges p c = false ↔ ∀ x, x ∈ refereeIds p ↔ x ∈ refereeIds c)
    ∧ (∀ m : Match, m.domaruppdraglista = none → refereeIds m = [])
    ∧ (∀ lp lc : List Referee, p.domaruppdraglista = some lp → c.domaruppdraglista = some lc →
        List.Perm (lp.map Referee.domareid) (lc.map Referee.domareid) →
        refereeChanges p c = false) := by
  refine ⟨?_, ?_, ?_, ?_⟩
  · intro r hr hid
    rw [changedRecords_mem_eq previous current i p c hp hc r hr hid]
    rfl
  · show decide ((refereeIds p).toFinset ≠ (refereeIds c).toFinset) = false ↔ _
    rw [decide_eq_false_iff_not, not_ne_iff, Finset.ext_iff]
    simp [List.mem_toFinset]
  · intro m hm
    simp [refereeIds, hm]
  · intro lp lc hlp hlc hperm
    have hfin : (refereeIds p).toFinset = (refereeIds c).toFinset := by
      have h1 : refereeIds p = lp.map Referee.domareid := by simp [refereeIds, hlp]
      have h2 : refereeIds c = lc.map Referee.domareid := by simp [refereeIds, hlc]
      rw [h1, h2]
      exact List.toFinset_eq_of_perm _ _ hperm
    simp [refereeChanges, hfin]

/-- C7 witness: permuting an officials list leaves the flag false. -/
theorem officials_changed_spec_witness :
    refereeChanges permMatchA permMatchB = false :=
  (officials_changed_spec [permMatchA] [permMatchB] 1 permMatchA permMatchB (by decide)
      (by decide)).2.2.2 [refA, refB] [refB, refA] rfl rfl (by decide)

/-- C2 counterexample: two configurations that differ only in the username
credential (both credential sets non-empty) produce different `/status`
bodies — the endpoint embeds the username value verbatim. -/
theorem status_differs_on_username :
    service_status sampleState
        (ServiceConfig.mk 8000 "0.0.0.0" (some "alice") (some "pw")) ≠
      service_status sampleState
        (ServiceConfig.mk 8000 "0.0.0.0" (some "bob") (some "pw")) := by
  intro hEq
  have husr := congrArg (fun b => b.configuration.fogis_username) hEq
  simp only [service_status, Option.getD_some] at husr
  exact absurd husr (by decide)

/-- C2 amended: the `/status` body never contains the password value — only
a truthiness boolean — so configurations that differ only in their
(non-empty) password values give identical bodies; the username value,
however, is included verbatim. -/
theorem status_password_noninterference (st : ServiceState) (cfg1 cfg2 : ServiceConfig)
    (hport : cfg1.health_server_port = cfg2.health_server_port)
    (hhost : cfg1.health_server_host = cfg2.health_server_host)
    (huser : cfg1.fogis_username = cfg2.fogis_username)
    (p1 p2 : String)
    (hp1 : cfg1.fogis_password = some p1) (hp2 : cfg2.fogis_password = some p2)
    (h1 : p1 ≠ "") (h2 : p2 ≠ "") :
    service_status st cfg1 = service_status st cfg2
    ∧ (service_status st cfg1).configuration.fogis_password_set = true
    ∧ (service_status st cfg1).configuration.fogis_username
        = cfg1.fogis_username.getD "NOT_SET" := by
  refine ⟨?_, ?_, rfl⟩
  · simp [service_status, hport, hhost, huser, hp1, hp2, pyTruthy, h1, h2]
  · simp [service_status, hp1, pyTruthy, h1]

/-- C2 witness: concrete configurations differing only in password give the
same `/status` body. -/
theorem status_password_noninterference_witness :
    service_status sampleState (ServiceConfig.mk 8000 "0.0.0.0" (some "user") (some "a"))
      = service_status sampleState
          (ServiceConfig.mk 8000 "0.0.0.0" (some "user") (some "b"))
    ∧ (service_status sampleState
        (ServiceConfig.mk 8000 "0.0.0.0" (some "user") (some "a"))).configuration.fogis_password_set
        = true
    ∧ (service_status sampleState
        (ServiceConfig.mk 8000 "0.0.0.0" (some "user") (some "a"))).configuration.fogis_username
        = (ServiceConfig.mk 8000 "0.0.0.0" (some "user")
            (some "a")).fogis_username.getD "NOT_SET" :=
  status_password_noninterference sampleState
    (ServiceConfig.mk 8000 "0.0.0.0" (some "user") (some "a"))
    (ServiceConfig.mk 8000 "0.0.0.0" (some "user") (some "b"))
    rfl rfl rfl "a" "b" rfl rfl (by decide) (by decide)

/-- With a non-empty previous snapshot, the summary returned by
`detect_changes` carries exactly the records of `changedRecords`. -/
theorem detect_changes_changed_details (previous current : List Match) (h : previous ≠ []) :
    ∃ s : ChangesSummary, (detect_changes previous current).2 = DetectResult.summary s
      ∧ s.changed_match_details = changedRecords previous current := by
  unfold detect_changes
  rw [if_neg h]
  exact ⟨_, rfl, rfl⟩
